import Mathlib

/-!
Verification of the auto-detect schema-inference engine of the CaaR
repository (`caar/cleanthermostat.py`): tokenizer, format detector,
timestamp locator, cycle-mode locator, column type classifier, identifier
resolver and parts of the cycles record validator.

The Python functions are embedded shallowly: strings are `String`, records
(tuples of fields) are `List String`, Python exceptions are an explicit
`PyErr` value threaded through `Except`.  Dynamically-typed comparisons
that can never hold (a `str` compared with an `int`, an `int` compared
with a `list`) are embedded as constantly-false tests, each carrying a doc
comment pointing at the source line it mirrors.
-/

namespace CaaR

/-- A tokenized record: the ordered fields of one delimited line
(`tuple` of `str` in the source). -/
abbrev Record := List String

/-- Python exceptions raised by the embedded functions.
`valueError` carries the message text;
`multipleDelimiters` models `_multiple_possible_delimiters` (source lines
1326-1330), which prints the viable delimiter candidates and then raises
`ValueError("Specify delimiter= in keyword arguments")`;
`valueNotFound` models `ValueError("No column found containing value X")`
raised by `_cycle_col_in_records`;
`nameError` models use of a local variable that was never bound;
`typeError` models Python `TypeError` (str/int mismatches, indexing a
tuple with `None`, `int()` applied to a generator object). -/
inductive PyErr where
  | typeError : PyErr
  | nameError : PyErr
  | valueError : String → PyErr
  | multipleDelimiters : List Char → PyErr
  | valueNotFound : String → PyErr
deriving Repr, DecidableEq

deriving instance DecidableEq for Except

/-- Python truthiness of a variable holding an `int` or `None`:
`None` and `0` are falsy.  Used where the source writes `if id_col:` or
`if cycle_col:`. -/
def pyTruthyOptNat : Option Nat → Bool
  | none => false
  | some n => n != 0

/-- `_contains_digits` (source line 1440): `re.compile('\d').search(line)`. -/
def contains_digits (line : String) : Bool :=
  line.toList.any Char.isDigit

/-- `_character_found_in_line` (source lines 1365-1367):
`bool(re.compile(char).search(line))`.  For the literal characters `,`,
tab and space the pattern matches exactly an occurrence of the character.
For `|` the compiled pattern is the regular-expression alternation of two
empty patterns, which matches the empty string at position 0 of every
line, so the function returns `True` for every line. -/
def character_found_in_line (line : String) (ch : Char) : Bool :=
  if ch = '|' then true else line.toList.contains ch

/-- Python `line.rstrip(chars)`: remove every trailing character that is a
member of the set `chars`. -/
def pyRstrip (s : String) (chars : List Char) : String :=
  String.mk ((s.toList.reverse.dropWhile (fun c => chars.contains c)).reverse)

/-- `_remove_newline_and_any_trailing_delimiter` (source lines 1156-1157):
`line.rstrip(delimiter + '\n')`. -/
def remove_newline_and_any_trailing_delimiter (line : String) (delimiter : Char) : String :=
  pyRstrip line [delimiter, '\n']

/-- One step of the `csv.reader` field automaton (QUOTE_MINIMAL with
`skipinitialspace=True`), specialised to a single line.  States:
0 = start of field (spaces skipped), 1 = inside an unquoted field,
2 = inside a quoted field, 3 = just saw a quote inside a quoted field.
The empty-line row (where `csv.reader` yields no row at all) is not
exercised by any input considered here. -/
def csv_split_go (delim : Char) (quote : Option Char) :
    List Char → Nat → List Char → List String → List String
  | [], _, cur, acc => acc ++ [String.mk cur.reverse]
  | c :: cs, st, cur, acc =>
    if st = 0 then
      if quote = some c then csv_split_go delim quote cs 2 cur acc
      else if c = ' ' then csv_split_go delim quote cs 0 cur acc
      else if c = delim then csv_split_go delim quote cs 0 [] (acc ++ [String.mk cur.reverse])
      else csv_split_go delim quote cs 1 (c :: cur) acc
    else if st = 1 then
      if c = delim then csv_split_go delim quote cs 0 [] (acc ++ [String.mk cur.reverse])
      else csv_split_go delim quote cs 1 (c :: cur) acc
    else if st = 2 then
      if quote = some c then csv_split_go delim quote cs 3 cur acc
      else csv_split_go delim quote cs 2 (c :: cur) acc
    else
      if quote = some c then csv_split_go delim quote cs 2 (c :: cur) acc
      else if c = delim then csv_split_go delim quote cs 0 [] (acc ++ [String.mk cur.reverse])
      else csv_split_go delim quote cs 1 (c :: cur) acc

/-- `csv.reader([line], delimiter=..., quotechar=..., skipinitialspace=True)`
as used by `_parse_line` and `_delimiter_gives_minimum_number_of_columns`.
`quotechar=None` (quote = `none`) disables quote processing, which is what
the csv module does. -/
def csvSplit (line : String) (delim : Char) (quote : Option Char) : List String :=
  csv_split_go delim quote line.toList 0 [] []

/-- `_parse_line` (source lines 1186-1194): strip the newline and one run
of trailing delimiters, fail with `ValueError` when the configured
delimiter is not found in the line (per `_character_found_in_line`, whose
pipe pattern matches every line), otherwise split into fields. -/
def parse_line (line : String) (delimiter : Char) (quote : Option Char) :
    Except PyErr Record :=
  let stripped := remove_newline_and_any_trailing_delimiter line delimiter
  if character_found_in_line stripped delimiter then
    .ok (csvSplit stripped delimiter quote)
  else
    .error (.valueError "Delimiter specified not found in header.")

/-- `_record_has_all_expected_columns` (source lines 682-686): the record
has the same field count as the header and every field is truthy
(non-empty). -/
def record_has_all_expected_columns (record : Record) (header : Record) : Bool :=
  record.length == header.length && record.all (fun s => !s.isEmpty)

/-- `_record_from_line` (source lines 729-737): `none` models the `None`
returned for lines without digits or with an unexpected field count; a
parse failure (delimiter absent) propagates as an exception. -/
def record_from_line (line : String) (delimiter : Char) (quote : Option Char)
    (header : Record) : Except PyErr (Option Record) :=
  if contains_digits line then
    match parse_line line delimiter quote with
    | .error e => .error e
    | .ok record =>
      if record_has_all_expected_columns record header then .ok (some record)
      else .ok none
  else .ok none

/-- `_determine_quote` (source lines 1408-1425).  A caller-supplied quote is
validated with `re.compile(quote).search(line)` — the same single-character
regex as `_character_found_in_line`; otherwise `"` then `'` are tried as
literal characters and the first one occurring in the line wins, with
`None` when neither occurs. -/
def determine_quote (line : String) (quote : Option Char) : Except PyErr (Option Char) :=
  match quote with
  | some q =>
    if character_found_in_line line q then .ok (some q)
    else .error (.valueError "quote not found as quote")
  | none =>
    if line.toList.contains '"' then .ok (some '"')
    else if line.toList.contains (Char.ofNat 39) then .ok (some (Char.ofNat 39))
    else .ok none

/-- `_minimum_number_of_columns_exist` (source lines 1380-1392) for the
header path (`expected_time_stamps=None`): at least 3 parsed columns. -/
def minimum_number_of_columns_exist (parsed : List String) : Bool :=
  parsed.length ≥ 3

/-- `_delimiter_gives_minimum_number_of_columns` (source lines 1333-1362)
as called with `header=None`, `auto`/`cycle`/`id_col_heading` at their
defaults (the case at every reachable call of `_determine_delimiter`: the
`header` keyword is never passed, so the time-stamp branch is dead code).
Fails when the candidate delimiter equals the quote character; answers
`False` when the candidate does not occur in the line; otherwise splits
the line and asks for at least three columns. -/
def delimiter_gives_minimum_number_of_columns (line : String) (delimiter : Char)
    (quote : Option Char) : Except PyErr Bool :=
  if some delimiter = quote then
    .error (.valueError "Delimiter and quote character are the same.")
  else if !character_found_in_line line delimiter then .ok false
  else
    let stripped := pyRstrip line [delimiter, '\n']
    .ok (minimum_number_of_columns_exist (csvSplit stripped delimiter quote))

/-- `_only_possible_delimiter_or_raise_error` (source lines 1305-1330).
When the comma qualifies together with any other candidate, or when at
least two non-comma candidates qualify, the qualifying candidates are
reported and a `ValueError` demanding an explicit `delimiter=` argument is
raised (`multipleDelimiters` carries the reported candidates, in the fixed
comma/tab/pipe/space order of the source's `delims` table). -/
def only_possible_delimiter_or_raise_error (commaPossible : Bool)
    (nonComma : List Char) : Except PyErr Char :=
  if commaPossible then
    if nonComma ≠ [] then .error (.multipleDelimiters (',' :: nonComma))
    else .ok ','
  else if nonComma.length > 1 then .error (.multipleDelimiters nonComma)
  else
    match nonComma with
    | [d] => .ok d
    | _ => .error (.valueError "Header does not appear to have commas, tabs, pipes or spaces as delimiters. Please specify.")

/-- `_determine_delimiter` (source lines 1279-1302) for the reachable
argument pattern `id_col_heading=None` (see
`delimiter_gives_minimum_number_of_columns`): resolve the quote, test the
comma, then tab and pipe, fall back to space only when none of the first
three qualified, and dispatch to
`only_possible_delimiter_or_raise_error`. -/
def determine_delimiter (line : String) (quoteArg : Option Char) : Except PyErr Char :=
  match determine_quote line quoteArg with
  | .error e => .error e
  | .ok q =>
    match delimiter_gives_minimum_number_of_columns line ',' q with
    | .error e => .error e
    | .ok commaPossible =>
      match delimiter_gives_minimum_number_of_columns line '\t' q with
      | .error e => .error e
      | .ok tabPossible =>
        match delimiter_gives_minimum_number_of_columns line '|' q with
        | .error e => .error e
        | .ok pipePossible =>
          let nonComma := (if tabPossible then ['\t'] else []) ++
                          (if pipePossible then ['|'] else [])
          if !commaPossible && nonComma.isEmpty then
            match delimiter_gives_minimum_number_of_columns line ' ' q with
            | .error e => .error e
            | .ok spacePossible =>
              only_possible_delimiter_or_raise_error commaPossible
                (if spacePossible then [' '] else [])
          else
            only_possible_delimiter_or_raise_error commaPossible nonComma

/-! ## Column Type Classifier (`_determine_types_of_non_time_cols`) -/

/-- Python `str.split(sep)` on a list of characters: always at least one
(possibly empty) group. -/
def splitCharList (sep : Char) : List Char → List (List Char)
  | [] => [[]]
  | c :: cs =>
    let rest := splitCharList sep cs
    if c = sep then [] :: rest
    else
      match rest with
      | g :: gs => (c :: g) :: gs
      | [] => [[c]]

/-- Python `str.isdigit()`: non-empty and all digits. -/
def py_isdigit (l : List Char) : Bool :=
  decide (l ≠ []) && l.all Char.isDigit

/-- The natural number denoted by a list of decimal digit characters. -/
def digitsToNat (l : List Char) : Nat :=
  l.foldl (fun n c => n * 10 + (c.toNat - 48)) 0

/-- Strip leading and trailing spaces (the whitespace tolerated by Python
numeric conversions; the data never carries other whitespace inside a
field). -/
def stripSpaces (l : List Char) : List Char :=
  ((l.dropWhile (· = ' ')).reverse.dropWhile (· = ' ')).reverse

/-- Drop one optional leading sign. -/
def dropSign : List Char → List Char
  | '+' :: cs => cs
  | '-' :: cs => cs
  | cs => cs

/-- Whether Python `int(s)` succeeds: optional sign then one or more
digits (underscore separators and other bases are not used by this
data and are not modelled). -/
def pyIntParses (s : String) : Bool :=
  py_isdigit (dropSign (stripSpaces s.toList))

/-- Whether Python `float(s)` succeeds, for the decimal forms occurring in
this data: optional sign, digits with at most one decimal point and at
least one digit overall (exponents, `inf` and `nan` are not modelled). -/
def pyFloatParses (s : String) : Bool :=
  let l := dropSign (stripSpaces s.toList)
  match splitCharList '.' l with
  | [a] => py_isdigit a
  | [a, b] => a.all Char.isDigit && b.all Char.isDigit && decide (a ≠ [] ∨ b ≠ [])
  | _ => false

/-- `_is_numeric` (source lines 936-942): `float(val)` succeeds. -/
def is_numeric (val : String) : Bool := pyFloatParses val

/-- `_is_float` (source lines 826-837): `int(val)` fails but `float(val)`
succeeds. -/
def is_float (val : String) : Bool :=
  if pyIntParses val then false else pyFloatParses val

/-- `_has_form_of_5_digit_zip` (source lines 840-842): exactly five
characters, all digits. -/
def has_form_of_5_digit_zip (val : String) : Bool :=
  val.length == 5 && py_isdigit val.toList

/-- `_has_form_of_zip_plus_4_code` (source lines 845-849): ten characters,
dash in position 5, the rest digits. -/
def has_form_of_zip_plus_4_code (val : String) : Bool :=
  val.length == 10 && (val.toList.getD 5 ' ') == '-' &&
    py_isdigit (val.toList.filter (· ≠ '-'))

/-- `_numeric_containing_commas` (source lines 945-963), ported with its
exact control flow (including the inverted-looking first-group test). -/
def numeric_containing_commas (val : String) : Bool :=
  let parts := splitCharList '.' val.toList
  let onesTensAndGreater := parts.headD []
  let splitByCommas := splitCharList ',' onesTensAndGreater
  let firstGroup := splitByCommas.headD []
  if firstGroup.length > 3 && py_isdigit firstGroup &&
      decide (firstGroup.headD ' ' ≠ '0') then false
  else if !splitByCommas.tail.all (fun g => g.length == 3 && py_isdigit g) then false
  else py_isdigit (parts.getLastD [])

/-- The classifier's accumulating state: one field per local of
`_determine_types_of_non_time_cols` (source lines 765-772).
`int_records_found` and `possible_zips` are dicts whose values are always
1, represented by their key lists in insertion order.  `zip_plus_4_cols`
holds the string VALUES appended by source line 791 (`append(val)`, not
the column index). -/
structure TypeState where
  int_records_found : List Nat
  possible_zips : List Nat
  float_cols : List Nat
  numeric_containing_commas : List Nat
  alphanumeric_cols : List Nat
  alpha_only_cols : List Nat
  zip_plus_4_cols : List String
deriving Repr, DecidableEq

/-- The empty classifier state. -/
def TypeState.initial : TypeState := ⟨[], [], [], [], [], [], []⟩

/-- `columns_assigned` (source lines 802-804): the concatenation also
includes `zip_plus_4_cols`, but those elements are strings (the appended
values) and a string never equals an int column index in the `col in
columns_assigned` membership test, so they are omitted here. -/
def columns_assigned (st : TypeState) : List Nat :=
  st.float_cols ++ st.numeric_containing_commas ++ st.alphanumeric_cols ++
    st.alpha_only_cols

/-- `dict[col] = 1` on an insertion-ordered key list. -/
def dict_insert_key (l : List Nat) (k : Nat) : List Nat :=
  if l.contains k then l else l ++ [k]

/-- Source line 781: `val[0] == 0 and val[1] != '.'`.  `val[0]` is a
one-character `str` and the comparison with the `int` 0 is always false in
Python 3 (the `and` therefore short-circuits before reading `val[1]`), so
the intended leading-zero rule never fires. -/
def first_char_equals_int_zero (_val : String) : Bool := false

/-- The per-value dispatch of `_determine_types_of_non_time_cols`
(source lines 777-804): columns already assigned are skipped, then the
chain of pattern tests appends the column (or, for zip+4, the value) to
the matching group. -/
def classify_value_step (st : TypeState) (col : Nat) (val : String) : TypeState :=
  if (columns_assigned st).contains col then st
  else if first_char_equals_int_zero val then
    { st with alphanumeric_cols := st.alphanumeric_cols ++ [col] }
  else if val.toList.contains ',' then
    if numeric_containing_commas val then
      { st with numeric_containing_commas := st.numeric_containing_commas ++ [col] }
    else { st with alphanumeric_cols := st.alphanumeric_cols ++ [col] }
  else if has_form_of_5_digit_zip val then
    { st with possible_zips := dict_insert_key st.possible_zips col }
  else if has_form_of_zip_plus_4_code val then
    { st with zip_plus_4_cols := st.zip_plus_4_cols ++ [val] }
  else if is_numeric val then
    if is_float val then { st with float_cols := st.float_cols ++ [col] }
    else { st with int_records_found := dict_insert_key st.int_records_found col }
  else if contains_digits val then
    { st with alphanumeric_cols := st.alphanumeric_cols ++ [col] }
  else { st with alpha_only_cols := st.alpha_only_cols ++ [col] }

/-- One record of the classifier loop: `for col in columns` over the
candidate columns (the candidate set is iterated in ascending index order;
`record.getD` stands for `record[col]`, in range because classification
only receives records matching the header length). -/
def classify_record (st : TypeState) (columns : List Nat) (record : Record) : TypeState :=
  columns.foldl (fun s col => classify_value_step s col (record.getD col "")) st

/-- The line loop of `_determine_types_of_non_time_cols` (source lines
774-804): every line of the file object is visited (the enumeration index
is never used to stop), lines without a valid record are skipped, parse
errors propagate. -/
def determine_types_loop (columns : List Nat) (lines : List String)
    (delimiter : Char) (quote : Option Char) (header : Record) :
    Except PyErr TypeState :=
  lines.foldlM
    (fun st line => do
      match ← record_from_line line delimiter quote header with
      | some record => pure (classify_record st columns record)
      | none => pure st)
    TypeState.initial

/-- The groups returned by `_determine_types_of_non_time_cols` (source
lines 814-821).  A key absent from the source's dict (its list was empty)
is an empty list here; `possible_zips` is the key name in the source. -/
structure ColsGrouped where
  floats : List Nat
  ints : List Nat
  numeric_commas : List Nat
  alphanumeric : List Nat
  alpha_only : List Nat
  possible_zips : List Nat
deriving Repr, DecidableEq

/-- `_determine_types_of_non_time_cols` (source lines 761-823): run the
classification loop, then pop every confirmed-`ints` column from the
possible-zip dict (lines 806-808) and every float column from the ints
dict (lines 810-812), and group. -/
def determine_types_of_non_time_cols (columns : List Nat) (lines : List String)
    (delimiter : Char) (quote : Option Char) (header : Record) :
    Except PyErr ColsGrouped :=
  match determine_types_loop columns lines delimiter quote header with
  | .error e => .error e
  | .ok st =>
    .ok ⟨st.float_cols,
         st.int_records_found.filter (fun c => !st.float_cols.contains c),
         st.numeric_containing_commas, st.alphanumeric_cols, st.alpha_only_cols,
         st.possible_zips.filter (fun c => !st.int_records_found.contains c)⟩

/-! ## Cycle-Mode Locator (`_detect_cycle_col`, `_cycle_col_in_records`) -/

/-- `_cycle_col_in_records` (source lines 1037-1048): scan the data lines
one by one — with no bound on the number of lines — and return
`record.index(cycle)` for the first record containing the requested cycle
literal; raise `ValueError` (the no-column-found message, carrying the
literal) when the lines are exhausted.  A line whose record is `None`
makes the Python membership test `cycle in record` raise `TypeError`. -/
def cycle_col_in_records (lines : List String) (header : Record) (delimiter : Char)
    (cycle : String) (quote : Option Char) : Except PyErr Nat :=
  match lines with
  | [] => .error (.valueNotFound cycle)
  | l :: ls =>
    match record_from_line l delimiter quote header with
    | .error e => .error e
    | .ok none => .error .typeError
    | .ok (some record) =>
      if record.contains cycle then .ok (record.indexOf cycle)
      else cycle_col_in_records ls header delimiter cycle quote

/-- `_detect_cycle_col` (source lines 1004-1034) for the auto-detect
cycles path (`auto='cycles'`, `cycle_col_heading=None`), over the data
lines that follow the header.  With no requested cycle mode the result is
`None`; otherwise `_cycle_col_in_records` decides (its internal raise
already covers the not-found case, making the `None` re-check at source
lines 1031-1032 unreachable). -/
def detect_cycle_col (lines : List String) (header : Record)
    (cycle_mode : Option String) (delimiter : Char) (quote : Option Char) :
    Except PyErr (Option Nat) :=
  match cycle_mode with
  | none => .ok none
  | some cm =>
    match cycle_col_in_records lines header delimiter cm quote with
    | .error e => .error e
    | .ok c => .ok (some c)

/-! ## Timestamp Locator (`_detect_time_stamps`) -/

/-- Models the `pandas.to_datetime` recognition used by
`_validate_time_stamp` (source lines 1113-1120) on the date shapes this
development evaluates it on: an ISO date `YYYY-MM-DD`, optionally followed
by a time `HH:MM:SS` — strings pandas accepts — while strings without that
shape (IDs, mode labels, plain numbers) are rejected, as pandas rejects
them. -/
def validate_time_stamp_model (s : String) : Bool :=
  let isoDate : List Char → Bool := fun l =>
    match splitCharList '-' l with
    | [y, m, d] =>
      py_isdigit y && y.length == 4 && py_isdigit m && m.length == 2 &&
      py_isdigit d && d.length == 2 &&
      1 ≤ digitsToNat m && digitsToNat m ≤ 12 &&
      1 ≤ digitsToNat d && digitsToNat d ≤ 31
    | _ => false
  let isoTime : List Char → Bool := fun l =>
    match splitCharList ':' l with
    | [h, mi, sec] =>
      py_isdigit h && h.length == 2 && py_isdigit mi && mi.length == 2 &&
      py_isdigit sec && sec.length == 2 &&
      digitsToNat h ≤ 23 && digitsToNat mi ≤ 59 && digitsToNat sec ≤ 59
    | _ => false
  match splitCharList ' ' s.toList with
  | [d] => isoDate d
  | [d, t] => isoDate d && isoTime t
  | _ => false

/-- The record-finding loop of `_detect_time_stamps` (source lines
694-702): scan lines, parse every digit-containing line (parse failures
propagate) and break on the first record matching the header width.  When
the loop exhausts the file, `record` holds the last parsed record, or is
unbound (`NameError`) when no line contained digits. -/
def record_for_time_stamp_scan (header : Record) (delimiter : Char)
    (quote : Option Char) : List String → Option Record → Except PyErr Record
  | [], some r => .ok r
  | [], none => .error .nameError
  | l :: ls, last =>
    if contains_digits l then
      match parse_line l delimiter quote with
      | .error e => .error e
      | .ok r =>
        if record_has_all_expected_columns r header then .ok r
        else record_for_time_stamp_scan header delimiter quote ls (some r)
    else record_for_time_stamp_scan header delimiter quote ls last

/-- The column loop of `_detect_time_stamps` (source lines 704-712),
parameterized by the timestamp oracle `isTs` standing for
`_validate_time_stamp`: a field qualifies when it contains `:`, `/` or `-`
and the oracle accepts it; the first qualifying column not equal to
`cycle_col` becomes the first timestamp, the next one the second (with a
break).  A qualifying column equal to `cycle_col` is passed over. -/
def detect_time_stamps_record (isTs : String → Bool) (cycleCol : Option Nat) :
    Nat → List String → Option Nat → Option Nat × Option Nat
  | _, [], first => (first, none)
  | col, v :: vs, first =>
    if (v.toList.contains ':' || v.toList.contains '/' || v.toList.contains '-')
        && isTs v then
      if first = none ∧ some col ≠ cycleCol then
        detect_time_stamps_record isTs cycleCol (col + 1) vs (some col)
      else if some col ≠ cycleCol then (first, some col)
      else detect_time_stamps_record isTs cycleCol (col + 1) vs first
    else detect_time_stamps_record isTs cycleCol (col + 1) vs first

/-- `_detect_time_stamps` (source lines 689-712) over the data lines that
follow the header. -/
def detect_time_stamps (isTs : String → Bool) (lines : List String)
    (header : Record) (delimiter : Char) (cycleCol : Option Nat)
    (quote : Option Char) : Except PyErr (Option Nat × Option Nat) :=
  match record_for_time_stamp_scan header delimiter quote lines none with
  | .error e => .error e
  | .ok record => .ok (detect_time_stamps_record isTs cycleCol 0 record none)

/-- The cycle-column and timestamp stages of `_analyze_all_columns`
(source lines 615-621): the cycle column is located first, but
`_detect_time_stamps` is then called with only `quote`/`encoding` keyword
arguments, leaving its `cycle_col` parameter at its default `None` — this
is the function's only call site. -/
def analyze_cycle_and_time_stamp_cols (isTs : String → Bool)
    (lines : List String) (header : Record) (cycle_mode : Option String)
    (delimiter : Char) (quote : Option Char) :
    Except PyErr (Option Nat × (Option Nat × Option Nat)) :=
  match detect_cycle_col lines header cycle_mode delimiter quote with
  | .error e => .error e
  | .ok cycleCol =>
    match detect_time_stamps isTs lines header delimiter none quote with
    | .error e => .error e
    | .ok ts => .ok (cycleCol, ts)

/-! ## Identifier Resolver (`_detect_id_other_cols`) -/

/-- Python `int(s)` as a conversion: the integer value, or `ValueError`
(the source applies it to values of columns already classified `ints`). -/
def pyToInt (s : String) : Except PyErr Int :=
  if pyIntParses s then
    match stripSpaces s.toList with
    | '-' :: cs => .ok (-(digitsToNat cs : Int))
    | '+' :: cs => .ok ((digitsToNat cs : Int))
    | cs => .ok ((digitsToNat cs : Int))
  else .error (.valueError "invalid literal for int with base 10")

/-- `_data_in_possible_id_cols` (source lines 966-978).  When alphanumeric
candidate columns exist, source lines 968-969 compute
`int(generator-expression)` — `int()` applied to a generator object — so
the call raises `TypeError` before producing data.  Otherwise the first
component is `None` and the second is the list of the record's values in
all `ints` candidate columns (as one bundle per record, not one entry per
column), or `None` when there are no `ints` candidates. -/
def data_in_possible_id_cols (record : Record) (data_cols : ColsGrouped) :
    Except PyErr (Option (List Int) × Option (List Int)) :=
  if data_cols.alphanumeric ≠ [] then .error .typeError
  else
    match data_cols.ints with
    | [] => .ok (none, none)
    | ints => do
      let vals ← ints.mapM (fun c => pyToInt (record.getD c ""))
      pure (none, some vals)

/-- The sampling loop of `_detect_id_other_cols` (source lines 867-884):
up to the line of index 1000 inclusive, every valid record contributes the
2-tuple produced by `_data_in_possible_id_cols`; `np.array` over those
tuples gives (with the repository-era NumPy) an object matrix whose two
columns are the tuple components. -/
def build_possible_id_sample (lines : List String) (header : Record)
    (data_cols : ColsGrouped) (delimiter : Char) (quote : Option Char) :
    Except PyErr (List (Option (List Int) × Option (List Int))) :=
  (lines.take 1001).foldlM
    (fun acc line => do
      match ← record_from_line line delimiter quote header with
      | some record => do
        let p ← data_in_possible_id_cols record data_cols
        pure (acc ++ [p])
      | none => pure acc)
    []

/-- ASCII upper-casing, Python `str.upper()` on the header labels. -/
def upperAscii (s : String) : String := String.mk (s.toList.map Char.toUpper)

/-- `_contains_id_heading` (source lines 1051-1055):
`'ID' in header[col_index].upper()`.  (`header.getD` stands for the
indexing; every header considered has at least three labels, enforced by
the three-column delimiter rule, so the index is in range.) -/
def contains_id_heading (header : Record) (colIndex : Nat) : Bool :=
  ((upperAscii (header.getD colIndex "")).toList.tails).any
    (fun t => (['I', 'D'] : List Char).isPrefixOf t)

/-- `_ids_in_col` (source lines 1069-1072) on the sampled matrix:
`np.unique` of matrix column 0 or 1 — the tuple components produced by
`_data_in_possible_id_cols` — counted as the number of distinct entries. -/
def ids_in_col_count (sample : List (Option (List Int) × Option (List Int)))
    (col : Nat) : Nat :=
  ((sample.map (fun p => if col = 0 then p.1 else p.2)).dedup).length

/-- `_primary_id_col_from_two_fields` (source lines 1058-1066): column 0
when its distinct count is at least that of column 1, else column 1. -/
def primary_id_col_from_two_fields
    (sample : List (Option (List Int) × Option (List Int))) : Nat :=
  if ids_in_col_count sample 0 ≥ ids_in_col_count sample 1 then 0 else 1

/-- Source line 898: `id_col in [col for col in [timestamp_cols +
[cycle_col]] if col is not None]`.  The comprehension iterates over the
single element `timestamp_cols + [cycle_col]` — a list, hence not `None` —
so the membership test compares `id_col` (an `int` or `None`) with that
list, and an `int` or `None` never equals a `list` in Python: the test is
false for every input, leaving the max/std heuristic of source lines
899-921 unreachable. -/
def id_col_in_nested_reserved_list (_idCol : Option Nat)
    (_timestampCols : List (Option Nat)) (_cycleCol : Option Nat) : Bool :=
  false

/-- The dict returned by `_detect_id_other_cols`: the classified groups
plus the optional `cycle_col` entry and the `id_col` entry.
`idColEntry = none` means the `id_col` key was never created (downstream
`_col_indexes_and_types_for_meta` then raises `KeyError`);
`idColEntry = some v` means the key was set to `v`. -/
structure IdOtherCols where
  cols : ColsGrouped
  cycleColEntry : Option Nat
  idColEntry : Option (Option Nat)
deriving Repr, DecidableEq

/-- `_detect_id_other_cols` (source lines 852-923).  The cascade as
executed: a truthy `id_col` argument wins; otherwise a sole alphanumeric
column wins immediately (before any heading is consulted); otherwise the
sample is built and the `ID`-heading rules run — both of the first two
labels ⇒ `_primary_id_col_from_two_fields` on the sampled tuple matrix,
only label 0 ⇒ column 0, neither ⇒ the `id_col` key is never set.  The
final reserved-column guard is `id_col_in_nested_reserved_list`, which is
constantly false, so the max-over-150/std fallback never runs (were it
reached, its NumPy comparisons of `None`/list entries and its fancy
indexing by unflattened index lists raise; the `.error .typeError` in that
branch records this, and is unreachable). -/
def detect_id_other_cols (lines : List String) (header : Record)
    (timestamp_cols : List (Option Nat)) (data_cols : ColsGrouped)
    (cycle_col : Option Nat) (id_col : Option Nat) (delimiter : Char)
    (quote : Option Char) : Except PyErr IdOtherCols :=
  let cycleEntry := if pyTruthyOptNat cycle_col then cycle_col else none
  if pyTruthyOptNat id_col then
    .ok ⟨data_cols, cycleEntry, some id_col⟩
  else if data_cols.alphanumeric.length = 1 then
    .ok ⟨data_cols, cycleEntry, some data_cols.alphanumeric.head?⟩
  else
    match build_possible_id_sample lines header data_cols delimiter quote with
    | .error e => .error e
    | .ok sample =>
      let idEntry : Option (Option Nat) :=
        if contains_id_heading header 0 && contains_id_heading header 1 then
          some (some (primary_id_col_from_two_fields sample))
        else if contains_id_heading header 0 then
          some (some 0)
        else none
      if id_col_in_nested_reserved_list (idEntry.getD none) timestamp_cols cycle_col then
        .error .typeError
      else
        .ok ⟨data_cols, cycleEntry, idEntry⟩

/-! ## Cycles Record Validator
(`_validate_cycle_records_add_to_dict_auto`, `_validate_cycles_auto_record`) -/

/-- Python tuple indexing `record[idx]` where `idx` is an `int` or `None`:
indexing a tuple with `None` raises `TypeError` ("tuple indices must be
integers"); an in-range `int` yields the field (all indices used here come
from column metadata of the same header, hence in range). -/
def pyTupleIndexOpt (record : Record) (idx : Option Nat) : Except PyErr String :=
  match idx with
  | none => .error .typeError
  | some i => .ok (record.getD i "")

/-- `_validate_cycle_mode` (source lines 1096-1103): `True` when the
record's cycle value is `None` (never the case for a tuple field) or
equals the requested mode; comparing a string with `cycle_mode=None` is
plain Python `==` and yields `False`. -/
def validate_cycle_mode (cycle : Option String) (cycle_mode : Option String) : Bool :=
  match cycle with
  | none => true
  | some c => cycle_mode == some c

/-- `_validate_id` (source lines 1106-1110): accept when no ID filter is
configured or the record's ID belongs to it. -/
def validate_id (idVal : String) (ids : Option (List String)) : Bool :=
  match ids with
  | none => true
  | some l => l.contains idVal

/-- `_validate_cycles_auto_record` (source lines 442-448): both arguments
of the `all([...])` list are evaluated eagerly, so `record[cycle_col]` is
computed first — with `cycle_col=None` this raises `TypeError` before any
validation happens. -/
def validate_cycles_auto_record (record : Record) (id_col : Nat)
    (ids : Option (List String)) (cycle_mode : Option String)
    (cycle_col : Option Nat) : Except PyErr Bool :=
  match pyTupleIndexOpt record cycle_col with
  | .error e => .error e
  | .ok cycleVal =>
    .ok (validate_cycle_mode (some cycleVal) cycle_mode &&
         validate_id (record.getD id_col "") ids)

/-- The `Cycle` named tuple (source line 31) used as the records dict key. -/
structure CycleKey where
  device_id : String
  cycle_mode : Option String
  start_time : String
deriving Repr, DecidableEq

/-- Python dict assignment `d[k] = v` on an insertion-ordered
association list. -/
def dictInsert (d : List (CycleKey × Record)) (k : CycleKey) (v : Record) :
    List (CycleKey × Record) :=
  if d.any (fun p => p.1 == k) then
    d.map (fun p => if p.1 == k then (k, v) else p)
  else d ++ [(k, v)]

/-- `_record_vals` (source lines 590-602) restricted to the selected
column positions; the per-type conversion functions are elided (they do
not change which records enter the dict). -/
def record_vals (record : Record) (cols : List Nat) : Record :=
  cols.map (fun c => record.getD c "")

/-- The line loop of `_validate_cycle_records_add_to_dict_auto` (source
lines 406-426): each valid, non-empty record is validated (exceptions
propagate); an accepted record is keyed by (ID value, cycle mode, start
time) and its data-column values stored.  The datetime-format guessing and
the value conversions of the source are elided: they do not affect which
records are validated or the exception raised during validation. -/
def cycle_records_go (header : Record) (delimiter : Char) (quote : Option Char)
    (id_col start_time_col : Nat) (cycle_mode : Option String)
    (cycle_col : Option Nat) (ids : Option (List String))
    (data_col_positions : List Nat) :
    List String → List (CycleKey × Record) → Except PyErr (List (CycleKey × Record))
  | [], acc => .ok acc
  | l :: ls, acc =>
    match record_from_line l delimiter quote header with
    | .error e => .error e
    | .ok none =>
      cycle_records_go header delimiter quote id_col start_time_col cycle_mode
        cycle_col ids data_col_positions ls acc
    | .ok (some record) =>
      if record.isEmpty then
        cycle_records_go header delimiter quote id_col start_time_col cycle_mode
          cycle_col ids data_col_positions ls acc
      else
        match validate_cycles_auto_record record id_col ids cycle_mode cycle_col with
        | .error e => .error e
        | .ok false =>
          cycle_records_go header delimiter quote id_col start_time_col cycle_mode
            cycle_col ids data_col_positions ls acc
        | .ok true =>
          let key : CycleKey :=
            ⟨record.getD id_col "", cycle_mode, record.getD start_time_col ""⟩
          cycle_records_go header delimiter quote id_col start_time_col cycle_mode
            cycle_col ids data_col_positions ls
            (dictInsert acc key (record_vals record data_col_positions))

/-- `_validate_cycle_records_add_to_dict_auto` (source lines 391-426) over
the data lines following the header.  `cycle_col` is the `position` of the
`cycle` entry of the column metadata when that entry exists, `None`
otherwise (source lines 399-400). -/
def validate_cycle_records_add_to_dict_auto (lines : List String)
    (header : Record) (delimiter : Char) (quote : Option Char)
    (id_col start_time_col : Nat) (cycle_mode : Option String)
    (cycle_col : Option Nat) (ids : Option (List String))
    (data_col_positions : List Nat) : Except PyErr (List (CycleKey × Record)) :=
  cycle_records_go header delimiter quote id_col start_time_col cycle_mode
    cycle_col ids data_col_positions lines []

/-! ## Theorems -/

/-- C3: a 4-character all-digit value with a leading zero, "0123", is
classified `ints`, not `alphanumeric`: the classifier run on a column
whose only sampled value is "0123" puts that column into the `ints`
group and leaves the `alphanumeric` group empty, because the source's
leading-zero test `val[0] == 0` compares a one-character string with the
integer 0 and is always false.  This refutes the claimed assignment to
`alphanumeric`. -/
theorem C3_leading_zero_classified_ints :
    determine_types_of_non_time_cols [0] ["0123,ab,cd"] ',' none ["A", "B", "C"]
      = .ok ⟨[], [0], [], [], [], []⟩ := by decide

/-- C9: for the delimiter `|` the tokenizer does not signal the
delimiter-not-present failure on a line containing no pipe character:
`_character_found_in_line` compiles `|` as the always-matching empty
regex alternation, so `_parse_line` reports the pipe as found and returns
the whole line as a single field instead of raising. -/
theorem C9_pipe_not_flagged_missing :
    ("a,b,c".toList.contains '|') = false ∧
    character_found_in_line "a,b,c" '|' = true ∧
    parse_line "a,b,c" '|' (some '"') = .ok ["a,b,c"] := by decide

/-- C2: an input that satisfies the claim's rule-4 conditions — no `id_col`
argument, no alphanumeric candidate, no "ID" label in the first two
header columns, `ints` candidates at positions 0 and 3 with sampled
maxima 200 and 3 (exactly one above 150) — yields a result whose `id_col`
key was never set: the reserved-column guard of source line 898 compares
an int-or-None with a nested list and is always false, so the
max-over-150 rule claimed as rule 4 never executes. -/
theorem C2_rule_four_unreachable :
    detect_id_other_cols ["200,2014-01-01 00:00:00,2014-01-02 00:00:00,3"]
        ["AAA", "BBB", "CCC", "DDD"] [some 1, some 2] ⟨[], [0, 3], [], [], [], []⟩
        none none ',' none
      = .ok ⟨⟨[], [0, 3], [], [], [], []⟩, none, none⟩ := by decide

/-- C6: with "ID" in both of the first two header labels, column 0 taking
the three distinct sampled values 1, 2, 3 and column 1 constantly 7 (one
distinct value), the resolver picks column 1, not the more-distinct
column 0: the sampled matrix holds one (alphanumeric-bundle, ints-bundle)
tuple per record, so `_primary_id_col_from_two_fields` compares the one
distinct `None` of tuple slot 0 with the three distinct value bundles of
tuple slot 1 instead of comparing file columns 0 and 1. -/
theorem C6_distinct_value_compare_broken :
    (["1", "2", "3"].dedup.length = 3 ∧ ["7", "7", "7"].dedup.length = 1) ∧
    detect_id_other_cols
        ["1,7,2014-01-01 00:00:00,2014-01-01 00:05:00",
         "2,7,2014-01-01 01:00:00,2014-01-01 01:05:00",
         "3,7,2014-01-01 02:00:00,2014-01-01 02:05:00"]
        ["GroupID", "DeviceID", "T1", "T2"] [some 2, some 3]
        ⟨[], [0, 1], [], [], [], []⟩ none none ',' none
      = .ok ⟨⟨[], [0, 1], [], [], [], []⟩, none, some (some 1)⟩ := by decide

/-- C8: in the cycles pipeline the located cycle column is not excluded
from timestamp candidacy: with the cycle-mode literal "2014-01-01" found
in column 1, the timestamp stage (called, as at its only call site,
without the `cycle_col` argument) returns that same column 1 as the first
timestamp column. -/
theorem C8_cycle_col_claimed_as_time_stamp :
    analyze_cycle_and_time_stamp_cols validate_time_stamp_model
        ["100,2014-01-01,2014-01-02 00:00:00,2014-01-03 00:00:00,5"]
        ["DeviceId", "CycleDate", "StartTime", "EndTime", "Watts"]
        (some "2014-01-01") ',' none
      = .ok (some 1, (some 1, some 2)) := by decide

/-- C1 (counterexample): a header whose first label "DeviceID" contains
"ID", together with classified columns `ints = [0, 1]` and a sole
alphanumeric column at position 2 (as produced, e.g., by the data row
`101,72,A5`), makes the resolver pick column 2 — the sole-alphanumeric
rule returns before the heading rule is ever consulted — contradicting
the claimed precedence of the heading rule, which would pick column 0. -/
theorem C1_counterexample :
    contains_id_heading ["DeviceID", "Temp", "Code"] 0 = true ∧
    detect_id_other_cols [] ["DeviceID", "Temp", "Code"] [none, none]
        ⟨[], [0, 1], [], [2], [], []⟩ none none ',' none
      = .ok ⟨⟨[], [0, 1], [], [2], [], []⟩, none, some (some 2)⟩ := by decide

/-- C1 (amended): the resolver evaluates the sole-alphanumeric rule
before the heading rule — whenever no truthy explicit ID column index is
supplied and exactly one column was classified alphanumeric, that column
becomes the ID column, regardless of any "ID" substring in the header's
first or second label; the heading rule applies only when the
alphanumeric count differs from one. -/
theorem C1_amended_sole_alphanumeric_first (lines : List String)
    (header : Record) (timestamp_cols : List (Option Nat))
    (data_cols : ColsGrouped) (cycle_col id_col : Option Nat)
    (delimiter : Char) (quote : Option Char)
    (hid : pyTruthyOptNat id_col = false)
    (halpha : data_cols.alphanumeric.length = 1) :
    detect_id_other_cols lines header timestamp_cols data_cols cycle_col
        id_col delimiter quote =
      .ok ⟨data_cols, if pyTruthyOptNat cycle_col then cycle_col else none,
           some data_cols.alphanumeric.head?⟩ := by
  unfold detect_id_other_cols
  simp [hid, halpha]

/-- Witness for C1 (amended): the sole alphanumeric column 2 is selected
at a concrete input even though no heading was supplied. -/
theorem C1_amended_witness :
    pyTruthyOptNat none = false ∧
    detect_id_other_cols [] ["Temp", "Code", "Other"] [none, none]
        ⟨[], [0, 1], [], [2], [], []⟩ none none ',' none
      = .ok ⟨⟨[], [0, 1], [], [2], [], []⟩, none, some (some 2)⟩ := by
  refine ⟨rfl, ?_⟩
  have h := C1_amended_sole_alphanumeric_first [] ["Temp", "Code", "Other"]
    [none, none] ⟨[], [0, 1], [], [2], [], []⟩ none none ',' none rfl (by decide)
  simpa using h

/-- C4: whenever the comma qualifies as a delimiter for a line (it occurs
and splits the line into at least three columns) and at least one of tab
or pipe qualifies as well, delimiter detection raises the
multiple-possible-delimiters error carrying comma together with exactly
the qualifying non-comma candidates, instead of returning comma. -/
theorem C4_ambiguous_delimiter_error (line : String) (quoteArg q : Option Char)
    (tabPossible pipePossible : Bool)
    (hq : determine_quote line quoteArg = .ok q)
    (hc : delimiter_gives_minimum_number_of_columns line ',' q = .ok true)
    (ht : delimiter_gives_minimum_number_of_columns line '\t' q = .ok tabPossible)
    (hp : delimiter_gives_minimum_number_of_columns line '|' q = .ok pipePossible)
    (hone : tabPossible = true ∨ pipePossible = true) :
    determine_delimiter line quoteArg =
      .error (.multipleDelimiters (',' ::
        ((if tabPossible then ['\t'] else []) ++
         (if pipePossible then ['|'] else [])))) := by
  unfold determine_delimiter
  rw [hq]
  dsimp only
  rw [hc]
  dsimp only
  rw [ht]
  dsimp only
  rw [hp]
  cases tabPossible <;> cases pipePossible <;>
    simp_all [only_possible_delimiter_or_raise_error]

/-- Witness for C4: on `1,2|3,4|5` both comma and pipe split into three
columns and the ambiguity error reports both. -/
theorem C4_ambiguous_delimiter_error_witness :
    determine_delimiter "1,2|3,4|5" none =
      .error (.multipleDelimiters [',', '|']) := by
  have h := C4_ambiguous_delimiter_error "1,2|3,4|5" none none false true
    (by decide) (by decide) (by decide) (by decide) (Or.inr rfl)
  simpa using h

/-- C5: any column for which the classification loop recorded at least
one `ints` value is absent from the final possible-zip group — the
cleanup pass pops every confirmed-ints column from the zip candidates, so
the `ints` classification wins over `possible_zip`. -/
theorem C5_ints_beats_possible_zip (columns : List Nat) (lines : List String)
    (delimiter : Char) (quote : Option Char) (header : Record)
    (st : TypeState) (g : ColsGrouped) (col : Nat)
    (hst : determine_types_loop columns lines delimiter quote header = .ok st)
    (hints : col ∈ st.int_records_found)
    (hg : determine_types_of_non_time_cols columns lines delimiter quote header
            = .ok g) :
    col ∉ g.possible_zips := by
  unfold determine_types_of_non_time_cols at hg
  rw [hst] at hg
  simp only [Except.ok.injEq] at hg
  subst hg
  intro hmem
  simp only [List.mem_filter, Bool.not_eq_true] at hmem
  rcases hmem with ⟨-, hno⟩
  simp at hno
  exact hno hints

/-- Witness for C5: a column sampled with the 6-digit value 654321
(classified `ints`) and the 5-digit value 12345 (a zip-form candidate)
ends up in `ints` and not among the possible-zip candidates. -/
theorem C5_ints_beats_possible_zip_witness :
    (0 ∈ (⟨[0], [0], [], [], [], [], []⟩ : TypeState).int_records_found) ∧
    0 ∉ (⟨[], [0], [], [], [], []⟩ : ColsGrouped).possible_zips :=
  ⟨by decide,
   C5_ints_beats_possible_zip [0] ["654321,ab,cd", "12345,ef,gh"] ',' none
     ["A", "B", "C"] ⟨[0], [0], [], [], [], [], []⟩ ⟨[], [0], [], [], [], []⟩ 0
     (by decide) (by decide) (by decide)⟩

/-- Helper: a prefix of valid records not containing the cycle literal is
scanned past without affecting the result of the cycle-column search. -/
theorem cycle_col_skip_replicate (n : Nat) (l : String) (rest : List String)
    (header : Record) (delimiter : Char) (cycle : String) (quote : Option Char)
    (r : Record)
    (h1 : record_from_line l delimiter quote header = .ok (some r))
    (h2 : r.contains cycle = false) :
    cycle_col_in_records (List.replicate n l ++ rest) header delimiter cycle quote
      = cycle_col_in_records rest header delimiter cycle quote := by
  induction n with
  | zero => rfl
  | succ k ih =>
    rw [List.replicate_succ, List.cons_append]
    rw [cycle_col_in_records]
    rw [h1]
    dsimp only
    rw [if_neg (by simpa using h2)]
    exact ih

/-- C7 (counterexample): the cycle-mode locator has no 1000-line bound —
with the literal "Cool" absent from the first 1001 records and present
(in column 1) only in the 1002nd, it still returns column 1, where the
claimed 1000-line window would require the value-not-found failure. -/
theorem C7_counterexample :
    cycle_col_in_records
        (List.replicate 1001 "5,Heat,2014-01-01 00:00:00" ++
          ["6,Cool,2014-01-01 00:00:00"])
        ["DeviceId", "CycleType", "StartTime"] ',' "Cool" none = .ok 1 := by
  rw [cycle_col_skip_replicate 1001 _ _ _ _ _ _
    ["5", "Heat", "2014-01-01 00:00:00"] (by decide) (by decide)]
  decide

/-- C7 (amended): the locator scans all lines without any bound,
returning the column index of the literal's first occurrence; when no
record in the entire file contains the value, it fails with the
value-not-found error rather than returning a column index. -/
theorem C7_amended_unbounded_scan (lines : List String) (header : Record)
    (delimiter : Char) (cycle : String) (quote : Option Char)
    (h : ∀ l ∈ lines, ∃ r, record_from_line l delimiter quote header
          = .ok (some r) ∧ r.contains cycle = false) :
    cycle_col_in_records lines header delimiter cycle quote
      = .error (.valueNotFound cycle) := by
  induction lines with
  | nil => rfl
  | cons a as ih =>
    obtain ⟨r, hr, hc⟩ := h a (List.mem_cons_self a as)
    rw [cycle_col_in_records]
    rw [hr]
    dsimp only
    rw [if_neg (by simpa using hc)]
    exact ih (fun l hl => h l (List.mem_cons_of_mem a hl))

/-- Witness for C7 (amended): a one-record file without the literal
"Cool" produces the value-not-found error. -/
theorem C7_amended_witness :
    cycle_col_in_records ["5,Heat,2014-01-01 00:00:00"]
        ["DeviceId", "CycleType", "StartTime"] ',' "Cool" none
      = .error (.valueNotFound "Cool") := by
  apply C7_amended_unbounded_scan
  intro l hl
  rw [List.mem_singleton] at hl
  subst hl
  exact ⟨["5", "Heat", "2014-01-01 00:00:00"], by decide, by decide⟩

/-- Helper: lines producing no record are scanned past by the cycles
record loop. -/
theorem cycle_records_go_skips_none (header : Record) (delimiter : Char)
    (quote : Option Char) (id_col start_time_col : Nat)
    (cycle_mode : Option String) (cycle_col : Option Nat)
    (ids : Option (List String)) (dataPos : List Nat) (pre rest : List String)
    (acc : List (CycleKey × Record))
    (hpre : ∀ p ∈ pre, record_from_line p delimiter quote header = .ok none) :
    cycle_records_go header delimiter quote id_col start_time_col cycle_mode
        cycle_col ids dataPos (pre ++ rest) acc
      = cycle_records_go header delimiter quote id_col start_time_col cycle_mode
          cycle_col ids dataPos rest acc := by
  induction pre with
  | nil => rfl
  | cons p ps ih =>
    rw [List.cons_append]
    rw [cycle_records_go]
    rw [hpre p (List.mem_cons_self p ps)]
    dsimp only
    exact ih (fun x hx => hpre x (List.mem_cons_of_mem p hx))

/-- Helper: with no cycle column configured, the record loop never adds
an entry — every accepted record fails with `TypeError` first, so an
`ok` outcome can only carry the unchanged accumulator. -/
theorem cycle_records_go_none_cycle_acc (header : Record) (delimiter : Char)
    (quote : Option Char) (id_col start_time_col : Nat)
    (ids : Option (List String)) (dataPos : List Nat) (lines : List String)
    (acc d : List (CycleKey × Record))
    (hok : cycle_records_go header delimiter quote id_col start_time_col none
            none ids dataPos lines acc = .ok d) :
    d = acc := by
  induction lines generalizing acc with
  | nil =>
    unfold cycle_records_go at hok
    injection hok with h
    exact h.symm
  | cons a as ih =>
    unfold cycle_records_go at hok
    cases hrec : record_from_line a delimiter quote header with
    | error e => rw [hrec] at hok; simp at hok
    | ok o =>
      rw [hrec] at hok
      cases o with
      | none => exact ih acc hok
      | some r =>
        dsimp only at hok
        by_cases he : r.isEmpty = true
        · rw [if_pos he] at hok
          exact ih acc hok
        · rw [if_neg he] at hok
          have hv : validate_cycles_auto_record r id_col ids none none
              = Except.error PyErr.typeError := rfl
          rw [hv] at hok
          simp at hok

/-- C10: with `auto='cycles'` and neither a cycle-mode literal nor a
cycle-column heading (so the metadata has no `cycle` entry and
`cycle_col` is `None`), validating the first accepted data record indexes
the record tuple with `None` and raises `TypeError`; and no run of the
loop ever returns a non-empty records dict. -/
theorem C10_none_cycle_col_type_error (pre : List String) (l : String)
    (post : List String) (header : Record) (delimiter : Char)
    (quote : Option Char) (id_col start_time_col : Nat)
    (ids : Option (List String)) (dataPos : List Nat) (r : Record)
    (hpre : ∀ p ∈ pre, record_from_line p delimiter quote header = .ok none)
    (hl : record_from_line l delimiter quote header = .ok (some r))
    (hr : r.isEmpty = false) :
    validate_cycle_records_add_to_dict_auto (pre ++ l :: post) header delimiter
        quote id_col start_time_col none none ids dataPos = .error .typeError ∧
    ∀ (lines2 : List String) (d : List (CycleKey × Record)),
      validate_cycle_records_add_to_dict_auto lines2 header delimiter quote
        id_col start_time_col none none ids dataPos = .ok d → d = [] := by
  constructor
  · unfold validate_cycle_records_add_to_dict_auto
    rw [cycle_records_go_skips_none header delimiter quote id_col start_time_col
      none none ids dataPos pre (l :: post) [] hpre]
    rw [cycle_records_go]
    rw [hl]
    dsimp only
    rw [if_neg (by simp [hr])]
    have hv : validate_cycles_auto_record r id_col ids none none
        = Except.error PyErr.typeError := rfl
    rw [hv]
  · intro lines2 d hok
    exact cycle_records_go_none_cycle_acc header delimiter quote id_col
      start_time_col ids dataPos lines2 [] d hok

/-- Witness for C10: a well-formed cycles row is accepted as a record and
the call fails with `TypeError` instead of producing any records dict. -/
theorem C10_witness :
    validate_cycle_records_add_to_dict_auto
        ["482,Cool,2014-01-01 00:00:00,2014-01-01 00:05:00,10"]
        ["DeviceId", "CycleType", "StartTime", "EndTime", "Degrees"]
        ',' none 0 2 none none none [3, 4] = .error .typeError :=
  (C10_none_cycle_col_type_error []
    "482,Cool,2014-01-01 00:00:00,2014-01-01 00:05:00,10" []
    ["DeviceId", "CycleType", "StartTime", "EndTime", "Degrees"] ',' none 0 2
    none [3, 4] ["482", "Cool", "2014-01-01 00:00:00", "2014-01-01 00:05:00", "10"]
    (by simp) (by decide) (by decide)).1

end CaaR
